import Mathlib

/-!
A shallow embedding of the sandbox lifecycle manager of `prefect-bot`
(`mounted_filesystem.py`, class `MountedDockerSandbox`, with the older
variant in `main.py`, class `Knapsack`).

The Docker SDK calls (`containers.run`, `containers.get`, `reload`, `stop`,
`remove`, `images.get`, `images.build`) are modelled as pure transitions on an
explicit `DockerState`; the daemon's nondeterminism (exit status, observed
statuses, exceptions) is passed in as explicit behaviour parameters, so the
repository code becomes a total function of its inputs and the daemon's
behaviour.  Python exceptions become `Except` values; a `try/except` that
converts an exception to a string becomes a `match` on the `Except`.
-/

namespace PrefectBot

/-- A volume binding, as built by the `volumes=` dictionary passed to
`containers.run`: host path, in-container bind path, and access mode. -/
structure Mount where
  hostPath : String
  bind : String
  mode : String
deriving Repr, DecidableEq

/-- A container tracked by the Docker daemon: its runtime-assigned id, the
image it was created from, its command, its volume bindings and its status
string as the daemon reports it. -/
structure Container where
  cid : String
  image : String
  command : List String
  mounts : List Mount
  status : String
deriving Repr, DecidableEq

/-- The daemon-side state the sandbox manager manipulates: which images are
present locally and which containers are listed. -/
structure DockerState where
  images : List String
  containers : List Container
deriving Repr, DecidableEq

/-- `docker rm`: drop every listed container with the given id. -/
def removeContainer (st : DockerState) (cid : String) : DockerState :=
  { st with containers := st.containers.filter (fun c => c.cid ≠ cid) }

/-- Add a freshly created container to the daemon listing. -/
def addContainer (st : DockerState) (c : Container) : DockerState :=
  { st with containers := c :: st.containers }

/-- `containers.get(container_id)`: look a container up by id. -/
def getContainer (st : DockerState) (cid : String) : Option Container :=
  st.containers.find? (fun c => c.cid = cid)

/-- The volumes dictionary both `run_command` and `start_background_service`
pass: the scratchpad host directory bound at `/app/scratchpad`, mode `ro`. -/
def scratchpadMount (scratchpad : String) : Mount :=
  { hostPath := scratchpad, bind := "/app/scratchpad", mode := "ro" }

/-- What the daemon does to a one-shot `containers.run(..., remove=True)`
call: zero exit with decoded logs, nonzero exit (`ContainerError`), image
missing (`ImageNotFound`, raised before any container exists), or a daemon
error at creation (`APIError`, likewise before any container exists). -/
inductive RunOutcome where
  | ok (output : String)
  | nonzeroExit (code : Nat) (stderr : String)
  | imageMissing (msg : String)
  | apiError (msg : String)
deriving Repr, DecidableEq

/-- The message of the `ContainerError` the SDK raises on a nonzero exit. -/
def containerErrorMsg (cmd : List String) (image : String) (code : Nat)
    (stderr : String) : String :=
  "Command " ++ toString cmd ++ " in image " ++ image ++
    " returned non-zero exit status " ++ toString code ++ ": " ++ stderr

/-- `containers.run(image, command, volumes=..., remove=True)` as the SDK
documents it: no container is created when the image is missing or creation
fails; otherwise a container is created, runs to completion, and is removed
whether the exit status was zero or not; a nonzero exit raises
`ContainerError` after the removal.  Returns the `Except` result, the final
daemon state, and the list of containers the call created. -/
def containersRunAutoRemove (st : DockerState) (image : String)
    (cmd : List String) (mounts : List Mount) (newId : String)
    (beh : RunOutcome) : Except String String × DockerState × List Container :=
  match beh with
  | .imageMissing msg => (.error msg, st, [])
  | .apiError msg => (.error msg, st, [])
  | .ok output =>
    let c : Container :=
      { cid := newId, image := image, command := cmd, mounts := mounts,
        status := "exited" }
    (.ok output, removeContainer (addContainer st c) newId, [c])
  | .nonzeroExit code stderr =>
    let c : Container :=
      { cid := newId, image := image, command := cmd, mounts := mounts,
        status := "exited" }
    (.error (containerErrorMsg cmd image code stderr),
      removeContainer (addContainer st c) newId, [c])

/-- The Python expression `image or self.docker_images[0]`: a falsy override
(`None` or the empty string) falls back to the default image. -/
def effectiveImage (image : Option String) (defaultImage : String) : String :=
  match image with
  | none => defaultImage
  | some s => if s = "" then defaultImage else s

/-- `MountedDockerSandbox.run_command` (`mounted_filesystem.py` lines
171-206): run the command in a fresh auto-removed container mounting the
scratchpad read-only; on success return the decoded output, on any exception
return the string `"Failed to run Python file: " ++ e`. -/
def run_command (st : DockerState) (scratchpad defaultImage : String)
    (command : List String) (image : Option String) (newId : String)
    (beh : RunOutcome) : String × DockerState × List Container :=
  match containersRunAutoRemove st (effectiveImage image defaultImage) command
      [scratchpadMount scratchpad] newId beh with
  | (.ok out, st', created) => (out, st', created)
  | (.error e, st', created) => ("Failed to run Python file: " ++ e, st', created)

/-- The exception message of each failing `RunOutcome`, as the `except`
block of `run_command` stringifies it. -/
def runOutcomeErrMsg (cmd : List String) (image : String) :
    RunOutcome → Option String
  | .ok _ => none
  | .nonzeroExit code stderr => some (containerErrorMsg cmd image code stderr)
  | .imageMissing msg => some msg
  | .apiError msg => some msg

/-- The `while retry_count < max_retries` loop of `start_background_service`
(`mounted_filesystem.py` lines 132-139).  `statusAt i` is the status the
`i`-th `container.reload()` observes; `remaining` is the retry budget still
unspent and `i` the index of the next poll.  Returns whether a poll observed
`running`, how many reloads were issued, and the duration of each
`time.sleep` issued, in order. -/
def pollLoop (statusAt : Nat → String) (retryInterval : Nat) :
    Nat → Nat → Bool × Nat × List Nat
  | 0, _ => (false, 0, [])
  | remaining + 1, i =>
    if statusAt i = "running" then (true, 1, [])
    else
      let r := pollLoop statusAt retryInterval remaining (i + 1)
      (r.1, r.2.1 + 1, retryInterval :: r.2.2)

/-- What the daemon does to the detached `containers.run(..., detach=True)`
call of `start_background_service`: either the container is created (and the
SDK returns its handle at once), or an exception is raised before any
container exists. -/
inductive StartRunOutcome where
  | ok
  | err (msg : String)
deriving Repr, DecidableEq

/-- The trace of one `start_background_service` call: the message returned,
the final daemon state, the containers created, the number of
`container.reload()` calls and the durations of the sleeps issued. -/
structure StartTrace where
  message : String
  final : DockerState
  created : List Container
  reloads : Nat
  sleeps : List Nat
deriving Repr, DecidableEq

/-- `MountedDockerSandbox.start_background_service` (`mounted_filesystem.py`
lines 109-147): launch a detached container from the default image with the
scratchpad mounted read-only, poll its status up to `maxRetries` times
sleeping `retryInterval` after each unsuccessful poll, return a success
message with the container id as soon as a poll observes `running`; if the
budget is exhausted, stop and remove the container and return a failure
message naming `maxRetries`; any exception is caught and stringified. -/
def start_background_service (st : DockerState) (scratchpad defaultImage : String)
    (command : String) (maxRetries retryInterval : Nat) (newId : String)
    (runBeh : StartRunOutcome) (statusAt : Nat → String) : StartTrace :=
  match runBeh with
  | .err e =>
    { message := "Failed to start background service: " ++ e,
      final := st, created := [], reloads := 0, sleeps := [] }
  | .ok =>
    let c : Container :=
      { cid := newId, image := defaultImage, command := [command],
        mounts := [scratchpadMount scratchpad], status := "created" }
    let st1 := addContainer st c
    let r := pollLoop statusAt retryInterval maxRetries 0
    if r.1 then
      { message := "Service started successfully with container ID: " ++ newId,
        final := st1, created := [c], reloads := r.2.1, sleeps := r.2.2 }
    else
      { message := "Failed to start background service after " ++
          toString maxRetries ++ " retries",
        final := removeContainer st1 newId, created := [c],
        reloads := r.2.1, sleeps := r.2.2 }

/-- The message of the `docker.errors.NotFound` exception raised by
`containers.get` on an unknown id. -/
def notFoundMsg (cid : String) : String :=
  "404 Client Error: Not Found (No such container: " ++ cid ++ ")"

/-- The trace of one `stop_background_service` call: the message returned,
the final daemon state, and the numbers of `container.stop()` and
`container.reload()` calls issued. -/
structure StopTrace where
  message : String
  final : DockerState
  stopCalls : Nat
  reloads : Nat
deriving Repr, DecidableEq

/-- `MountedDockerSandbox.stop_background_service` (`mounted_filesystem.py`
lines 149-169): look the container up by id (an unknown id raises `NotFound`,
caught and stringified); otherwise issue one stop request, re-fetch the
status exactly once (`statusAfterStop` is what that single reload observes);
if it is `exited` remove the container and return success, otherwise return a
failure message without attempting removal. -/
def stop_background_service (st : DockerState) (containerId : String)
    (statusAfterStop : String) : StopTrace :=
  match getContainer st containerId with
  | none =>
    { message := "Failed to stop background service: " ++ notFoundMsg containerId,
      final := st, stopCalls := 0, reloads := 0 }
  | some c =>
    let stopped : Container := { c with status := statusAfterStop }
    let st1 : DockerState :=
      { st with containers :=
          st.containers.map (fun d => if d.cid = containerId then stopped else d) }
    if statusAfterStop = "exited" then
      { message := "Service stopped and container removed with ID: " ++ containerId,
        final := removeContainer st1 containerId, stopCalls := 1, reloads := 1 }
    else
      { message := "Failed to stop background service with container ID: " ++ containerId,
        final := st1, stopCalls := 1, reloads := 1 }

/-- The trace of one `ensure_docker_image_ready` call: the number of
`images.get` existence checks and the `(path, tag)` of each `images.build`
call issued. -/
structure ProvisionTrace where
  existenceChecks : Nat
  builds : List (String × String)
deriving Repr, DecidableEq

/-- `MountedDockerSandbox.ensure_docker_image_ready` (`mounted_filesystem.py`
lines 53-63): check whether the image is present (`images.get`); only if the
check raises `ImageNotFound`, build from the local context `"."` tagged with
the image name.  Only `ImageNotFound` is caught: a build failure
(`buildResult = .error e`) propagates uncaught, modelled as `Except.error`. -/
def ensure_docker_image_ready (st : DockerState) (imageName : String)
    (buildResult : Except String Unit) :
    Except String DockerState × ProvisionTrace :=
  if imageName ∈ st.images then
    (.ok st, { existenceChecks := 1, builds := [] })
  else
    match buildResult with
    | .ok _ =>
      (.ok { st with images := imageName :: st.images },
        { existenceChecks := 1, builds := [(".", imageName)] })
    | .error e =>
      (.error e, { existenceChecks := 1, builds := [(".", imageName)] })

/-- The scratchpad directory as the script CRUD operations see it: a listing
of (file name, contents) pairs. -/
abbrev Scratchpad : Type := List (String × String)

/-- `Path.write_text`: create the file or replace its contents. -/
def writeText (fs : Scratchpad) (name body : String) : Scratchpad :=
  (fs.filter (fun p => p.1 ≠ name)) ++ [(name, body)]

/-- `MountedDockerSandbox.create_or_update_scripts` (`mounted_filesystem.py`
lines 65-91): write the body to the named file in the scratchpad; the
function has no `return` on the success path, so it returns `None` there, and
returns the string `"Failed to write new helper: " ++ e` when the write
raises (`writeBeh = .error e`). -/
def create_or_update_scripts (fs : Scratchpad) (filename body : String)
    (writeBeh : Except String Unit) : Option String × Scratchpad :=
  match writeBeh with
  | .ok _ => (none, writeText fs filename body)
  | .error e => (some ("Failed to write new helper: " ++ e), fs)

/-- The message of the `FileNotFoundError` raised by `Path.unlink` on a
missing file. -/
def fileNotFoundMsg (name : String) : String :=
  "[Errno 2] No such file or directory: " ++ name

/-- `MountedDockerSandbox.delete_script` (`mounted_filesystem.py` lines
93-103): unlink the named file; returns `None` on success and the string
`"Failed to delete helper: " ++ e` when the unlink raises (here: when the
file does not exist). -/
def delete_script (fs : Scratchpad) (filename : String) :
    Option String × Scratchpad :=
  if fs.any (fun p => p.1 = filename) then
    (none, fs.filter (fun p => p.1 ≠ filename))
  else
    (some ("Failed to delete helper: " ++ fileNotFoundMsg filename), fs)

/-- `rglob` pattern matching restricted to the patterns the code uses: a
pattern `"*X"` matches any name ending in `X`; a pattern without a leading
star matches exactly itself. -/
def matchesPattern (pattern name : String) : Bool :=
  if pattern.take 1 = "*" then name.endsWith (pattern.drop 1)
  else pattern = name

/-- `MountedDockerSandbox.list_scripts` (`mounted_filesystem.py` lines
105-107): the names of the scratchpad files matching the pattern — a list of
strings, not a single string. -/
def list_scripts (fs : Scratchpad) (pattern : String) : List String :=
  (fs.filter (fun p => matchesPattern pattern p.1)).map Prod.fst

/-! ## Helper lemmas -/

/-- After `docker rm`, no container with the removed id is listed. -/
theorem removeContainer_not_listed (st : DockerState) (cid : String) :
    cid ∉ (removeContainer st cid).containers.map Container.cid := by
  simp only [removeContainer, List.mem_map, List.mem_filter, not_exists]
  rintro c ⟨⟨_, hne⟩, heq⟩
  simp only [decide_not, Bool.not_eq_eq_eq_not, Bool.not_true, decide_eq_false_iff_not] at hne
  exact hne heq

/-- The poll loop never issues more reloads than its remaining budget. -/
theorem pollLoop_reloads_le (statusAt : Nat → String) (ri : Nat) :
    ∀ n i, (pollLoop statusAt ri n i).2.1 ≤ n := by
  intro n
  induction n with
  | zero => intro i; simp [pollLoop]
  | succ m ih =>
    intro i
    simp only [pollLoop]
    split
    · simp
    · exact Nat.succ_le_succ (ih (i + 1))

/-- If the first `running` observation is the `k`-th poll (counting from the
offset `i`), the loop stops right there: `k + 1` reloads, one fixed-length
sleep after each of the `k` unsuccessful polls. -/
theorem pollLoop_first_running (statusAt : Nat → String) (ri : Nat) :
    ∀ n i k, k < n → statusAt (i + k) = "running" →
      (∀ j, j < k → statusAt (i + j) ≠ "running") →
      pollLoop statusAt ri n i = (true, k + 1, List.replicate k ri) := by
  intro n
  induction n with
  | zero => intro i k hk; omega
  | succ m ih =>
    intro i k hk hrun hfirst
    cases k with
    | zero =>
      simp only [Nat.add_zero] at hrun
      simp [pollLoop, hrun]
    | succ k0 =>
      have hne : statusAt i ≠ "running" := by
        have := hfirst 0 (Nat.succ_pos k0)
        simpa using this
      have hrec := ih (i + 1) k0 (by omega)
        (by rw [show i + 1 + k0 = i + (k0 + 1) by omega]; exact hrun)
        (fun j hj => by
          rw [show i + 1 + j = i + (j + 1) by omega]
          exact hfirst (j + 1) (by omega))
      simp [pollLoop, hne, hrec, List.replicate_succ]

/-- If no poll in the budget observes `running`, the loop reports failure
after exactly `n` reloads and `n` fixed-length sleeps. -/
theorem pollLoop_exhausted (statusAt : Nat → String) (ri : Nat) :
    ∀ n i, (∀ k, k < n → statusAt (i + k) ≠ "running") →
      pollLoop statusAt ri n i = (false, n, List.replicate n ri) := by
  intro n
  induction n with
  | zero => intro i _; simp [pollLoop]
  | succ m ih =>
    intro i hall
    have hne : statusAt i ≠ "running" := by
      have := hall 0 (Nat.succ_pos m)
      simpa using this
    have hrec := ih (i + 1) (fun k hk => by
      rw [show i + 1 + k = i + (k + 1) by omega]
      exact hall (k + 1) (by omega))
    simp [pollLoop, hne, hrec, List.replicate_succ]

/-- Updating one container in place preserves the lookup, now returning the
updated record, provided the update keeps the id. -/
theorem getContainer_update (l : List Container) (cid : String) (c newc : Container)
    (h : l.find? (fun d => d.cid = cid) = some c) (hnew : newc.cid = cid) :
    (l.map (fun d => if d.cid = cid then newc else d)).find?
      (fun d => d.cid = cid) = some newc := by
  induction l with
  | nil => simp [List.find?] at h
  | cons d rest ih =>
    by_cases hd : d.cid = cid
    · simp [List.find?, hd, hnew]
    · have h' : rest.find? (fun d => d.cid = cid) = some c := by
        simpa [List.find?, hd] using h
      simpa [List.find?, hd] using ih h'

/-! ## Claim theorems -/

/-- C1: for every non-empty argument list (and any optional image),
`run_command` returns a string: on zero exit status the decoded captured
output, and for every failing outcome (nonzero exit, missing image,
runtime/daemon error) the human-readable string
`"Failed to run Python file: " ++ e` naming the cause.  The embedding is a
total function into `String`, so no fault escapes to the caller. -/
theorem claim_C1_run_command_soft_fail (st : DockerState)
    (scratchpad defaultImage : String) (command : List String)
    (image : Option String) (newId : String) (beh : RunOutcome)
    (hne : command ≠ []) :
    (∀ out, beh = RunOutcome.ok out →
      (run_command st scratchpad defaultImage command image newId beh).1 = out) ∧
    (∀ e, runOutcomeErrMsg command (effectiveImage image defaultImage) beh = some e →
      (run_command st scratchpad defaultImage command image newId beh).1 =
        "Failed to run Python file: " ++ e) := by
  cases beh <;> simp [run_command, containersRunAutoRemove, runOutcomeErrMsg]

/-- C1 witness: at a concrete non-empty command and a zero-exit outcome the
call returns the captured output. -/
theorem claim_C1_run_command_soft_fail_witness :
    (run_command { images := ["prefect-sandbox"], containers := [] } "scratchpad"
      "prefect-sandbox" ["ls"] none "c1" (RunOutcome.ok "out")).1 = "out" :=
  (claim_C1_run_command_soft_fail _ _ _ _ _ _ _ (by simp)).1 "out" rfl

/-- C2: every container created by a `run_command` invocation is destroyed by
the time the call returns — its id is absent from the final daemon listing,
on the success path and on every failure path alike. -/
theorem claim_C2_run_command_container_removed (st : DockerState)
    (scratchpad defaultImage : String) (command : List String)
    (image : Option String) (newId : String) (beh : RunOutcome) (c : Container)
    (hc : c ∈ (run_command st scratchpad defaultImage command image newId beh).2.2) :
    c.cid ∉
      ((run_command st scratchpad defaultImage command image newId beh).2.1).containers.map
        Container.cid := by
  cases beh with
  | ok out =>
    simp only [run_command, containersRunAutoRemove, List.mem_singleton] at hc
    subst hc
    exact removeContainer_not_listed _ _
  | nonzeroExit code stderr =>
    simp only [run_command, containersRunAutoRemove, List.mem_singleton] at hc
    subst hc
    exact removeContainer_not_listed _ _
  | imageMissing msg => simp [run_command, containersRunAutoRemove] at hc
  | apiError msg => simp [run_command, containersRunAutoRemove] at hc

/-- C2 witness: at a concrete invocation with a nonzero exit, the created
container is not listed afterwards. -/
theorem claim_C2_run_command_container_removed_witness :
    "c1" ∉
      ((run_command { images := ["prefect-sandbox"], containers := [] } "scratchpad"
        "prefect-sandbox" ["false"] none "c1" (RunOutcome.nonzeroExit 1 "boom")).2.1).containers.map
        Container.cid := by
  have h := claim_C2_run_command_container_removed
    { images := ["prefect-sandbox"], containers := [] } "scratchpad"
    "prefect-sandbox" ["false"] none "c1" (RunOutcome.nonzeroExit 1 "boom")
    { cid := "c1", image := "prefect-sandbox", command := ["false"],
      mounts := [scratchpadMount "scratchpad"], status := "exited" }
    (by simp [run_command, containersRunAutoRemove, scratchpadMount, effectiveImage])
  simpa using h

/-- C6: on an identifier that resolves to no container, the lookup failure is
caught and `stop_background_service` returns a failure string, leaving the
daemon state untouched; being a total function it never raises. -/
theorem claim_C6_stop_unknown_id (st : DockerState)
    (containerId statusAfterStop : String)
    (h : getContainer st containerId = none) :
    (stop_background_service st containerId statusAfterStop).message =
      "Failed to stop background service: " ++ notFoundMsg containerId ∧
    (stop_background_service st containerId statusAfterStop).final = st := by
  simp [stop_background_service, h]

/-- C6 witness: stopping an unknown id on an empty daemon state returns the
failure string. -/
theorem claim_C6_stop_unknown_id_witness :
    (stop_background_service { images := [], containers := [] } "nope" "exited").message =
      "Failed to stop background service: " ++ notFoundMsg "nope" :=
  (claim_C6_stop_unknown_id { images := [], containers := [] } "nope" "exited" rfl).1

/-- C7: provisioning an already-present image is a single existence check and
no build; an absent image triggers exactly one build from the fixed local
context `"."` tagged with the image name, and a build failure propagates
uncaught (`Except.error`) as a fatal initialization fault. -/
theorem claim_C7_image_provisioning (st : DockerState) (imageName : String)
    (buildResult : Except String Unit) :
    (imageName ∈ st.images →
      (ensure_docker_image_ready st imageName buildResult).1 = Except.ok st ∧
      (ensure_docker_image_ready st imageName buildResult).2 =
        { existenceChecks := 1, builds := [] }) ∧
    (imageName ∉ st.images →
      (ensure_docker_image_ready st imageName buildResult).2 =
        { existenceChecks := 1, builds := [(".", imageName)] } ∧
      ∀ e, buildResult = Except.error e →
        (ensure_docker_image_ready st imageName buildResult).1 = Except.error e) := by
  by_cases h : imageName ∈ st.images
  · simp [ensure_docker_image_ready, h]
  · cases buildResult <;> simp [ensure_docker_image_ready, h]

/-- C7 witness: with the image already present, provisioning returns the
unchanged state after one existence check and no build. -/
theorem claim_C7_image_provisioning_witness :
    (ensure_docker_image_ready { images := ["prefect-sandbox"], containers := [] }
      "prefect-sandbox" (Except.ok Unit.unit)).2 =
      { existenceChecks := 1, builds := [] } :=
  (claim_C7_image_provisioning { images := ["prefect-sandbox"], containers := [] }
    "prefect-sandbox" (Except.ok Unit.unit)).1 (by simp) |>.2

/-- C10: a falsy image override (`None` or the empty string) falls back to
the default image: `run_command` with `image = some ""` creates its container
from the default image, exactly as with no override. -/
theorem claim_C10_falsy_image_falls_back (st : DockerState)
    (scratchpad defaultImage : String) (command : List String)
    (image : Option String) (newId : String) (beh : RunOutcome)
    (h : image = none ∨ image = some "") :
    effectiveImage image defaultImage = defaultImage ∧
    ∀ c ∈ (run_command st scratchpad defaultImage command image newId beh).2.2,
      c.image = defaultImage := by
  rcases h with rfl | rfl <;> cases beh <;>
    simp [effectiveImage, run_command, containersRunAutoRemove]

/-- C10 witness: the empty-string override resolves to the default image. -/
theorem claim_C10_falsy_image_falls_back_witness :
    effectiveImage (some "") "prefect-sandbox" = "prefect-sandbox" :=
  (claim_C10_falsy_image_falls_back { images := [], containers := [] } "sp"
    "prefect-sandbox" ["ls"] (some "") "c1" (RunOutcome.ok "o") (Or.inr rfl)).1

/-- C3: `start_background_service` issues at most `maxRetries` status polls
for every behaviour, and as soon as a poll observes `running` — say the
first such poll is the `i`-th — it returns immediately with the success
message containing the container id, after exactly `i + 1` polls and one
`retryInterval`-long sleep after each of the `i` unsuccessful polls (a fixed
interval, no backoff growth). -/
theorem claim_C3_start_polls_bounded_and_short_circuits (st : DockerState)
    (scratchpad defaultImage command : String)
    (maxRetries retryInterval : Nat) (newId : String) (statusAt : Nat → String)
    (i : Nat) (hi : i < maxRetries) (hrun : statusAt i = "running")
    (hfirst : ∀ j, j < i → statusAt j ≠ "running") :
    (∀ runBeh statusAt2,
      (start_background_service st scratchpad defaultImage command maxRetries
        retryInterval newId runBeh statusAt2).reloads ≤ maxRetries) ∧
    (start_background_service st scratchpad defaultImage command maxRetries
        retryInterval newId StartRunOutcome.ok statusAt).message =
      "Service started successfully with container ID: " ++ newId ∧
    (start_background_service st scratchpad defaultImage command maxRetries
        retryInterval newId StartRunOutcome.ok statusAt).reloads = i + 1 ∧
    (start_background_service st scratchpad defaultImage command maxRetries
        retryInterval newId StartRunOutcome.ok statusAt).sleeps =
      List.replicate i retryInterval := by
  have hpoll := pollLoop_first_running statusAt retryInterval maxRetries 0 i hi
    (by simpa using hrun) (fun j hj => by simpa using hfirst j hj)
  refine ⟨?_, ?_, ?_, ?_⟩
  · intro runBeh statusAt2
    cases runBeh with
    | err e => simp [start_background_service]
    | ok =>
      simp only [start_background_service]
      split
      · exact pollLoop_reloads_le statusAt2 retryInterval maxRetries 0
      · exact pollLoop_reloads_le statusAt2 retryInterval maxRetries 0
  · simp [start_background_service, hpoll]
  · simp [start_background_service, hpoll]
  · simp [start_background_service, hpoll]

/-- C3 witness: with `running` observed on the very first poll, the call
returns the success message naming the container id after one poll and no
sleeps. -/
theorem claim_C3_start_polls_bounded_and_short_circuits_witness :
    (start_background_service { images := [], containers := [] } "sp" "img" "cmd"
      3 2 "c1" StartRunOutcome.ok (fun _ => "running")).message =
      "Service started successfully with container ID: " ++ "c1" :=
  (claim_C3_start_polls_bounded_and_short_circuits
    { images := [], containers := [] } "sp" "img" "cmd" 3 2 "c1"
    (fun _ => "running") 0 (by decide) rfl
    (fun j hj => absurd hj (Nat.not_lt_zero j))).2.1

/-- C4: if no poll in the retry budget observes `running`,
`start_background_service` stops and removes the container it created,
returns a failure message naming the exhausted retry count, and the
container id is absent from the final daemon listing. -/
theorem claim_C4_start_exhausted_cleanup (st : DockerState)
    (scratchpad defaultImage command : String)
    (maxRetries retryInterval : Nat) (newId : String) (statusAt : Nat → String)
    (h : ∀ j, j < maxRetries → statusAt j ≠ "running") :
    (start_background_service st scratchpad defaultImage command maxRetries
        retryInterval newId StartRunOutcome.ok statusAt).message =
      "Failed to start background service after " ++ toString maxRetries ++
        " retries" ∧
    newId ∉
      ((start_background_service st scratchpad defaultImage command maxRetries
        retryInterval newId StartRunOutcome.ok statusAt).final).containers.map
        Container.cid := by
  have hpoll := pollLoop_exhausted statusAt retryInterval maxRetries 0
    (fun k hk => by simpa using h k hk)
  have hrun : start_background_service st scratchpad defaultImage command
      maxRetries retryInterval newId StartRunOutcome.ok statusAt =
    { message := "Failed to start background service after " ++
        toString maxRetries ++ " retries",
      final := removeContainer (addContainer st
        { cid := newId, image := defaultImage, command := [command],
          mounts := [scratchpadMount scratchpad], status := "created" }) newId,
      created :=
        [{ cid := newId, image := defaultImage, command := [command],
           mounts := [scratchpadMount scratchpad], status := "created" }],
      reloads := maxRetries, sleeps := List.replicate maxRetries retryInterval } := by
    simp [start_background_service, hpoll]
  rw [hrun]
  exact ⟨rfl, removeContainer_not_listed _ _⟩

/-- C4 witness: a service that never reaches `running` within 2 retries
yields the failure message naming 2 retries. -/
theorem claim_C4_start_exhausted_cleanup_witness :
    (start_background_service { images := [], containers := [] } "sp" "img" "cmd"
      2 1 "c1" StartRunOutcome.ok (fun _ => "created")).message =
      "Failed to start background service after " ++ toString 2 ++ " retries" :=
  (claim_C4_start_exhausted_cleanup { images := [], containers := [] } "sp" "img"
    "cmd" 2 1 "c1" (fun _ => "created")
    (fun _ _ => by exact (by decide : "created" ≠ "running"))).1

/-- C5: on an identifier that resolves to a container,
`stop_background_service` issues exactly one stop request and exactly one
status re-fetch; if that single fetch observes `exited` it removes the
container and returns the success message, and otherwise it returns a
failure message without attempting removal — the container stays listed. -/
theorem claim_C5_stop_single_check (st : DockerState)
    (containerId statusAfterStop : String) (c : Container)
    (hc : getContainer st containerId = some c) :
    (stop_background_service st containerId statusAfterStop).stopCalls = 1 ∧
    (stop_background_service st containerId statusAfterStop).reloads = 1 ∧
    (statusAfterStop = "exited" →
      (stop_background_service st containerId statusAfterStop).message =
        "Service stopped and container removed with ID: " ++ containerId ∧
      containerId ∉
        (stop_background_service st containerId statusAfterStop).final.containers.map
          Container.cid) ∧
    (statusAfterStop ≠ "exited" →
      (stop_background_service st containerId statusAfterStop).message =
        "Failed to stop background service with container ID: " ++ containerId ∧
      getContainer (stop_background_service st containerId statusAfterStop).final
        containerId = some { c with status := statusAfterStop }) := by
  have hcid : c.cid = containerId := by
    have hfind : st.containers.find? (fun d => d.cid = containerId) = some c := by
      simpa [getContainer] using hc
    simpa using List.find?_some hfind
  by_cases hs : statusAfterStop = "exited"
  · subst hs
    have heq : stop_background_service st containerId "exited" =
      { message := "Service stopped and container removed with ID: " ++ containerId,
        final := removeContainer
          { st with
            containers := st.containers.map
              (fun d => if d.cid = containerId then { c with status := "exited" }
                else d) }
          containerId,
        stopCalls := 1, reloads := 1 } := by
      simp [stop_background_service, hc]
    rw [heq]
    exact ⟨rfl, rfl, fun _ => ⟨rfl, removeContainer_not_listed _ _⟩,
      fun hne => absurd rfl hne⟩
  · have heq : stop_background_service st containerId statusAfterStop =
      { message := "Failed to stop background service with container ID: " ++
          containerId,
        final :=
          { st with
            containers := st.containers.map
              (fun d => if d.cid = containerId then { c with status := statusAfterStop }
                else d) },
        stopCalls := 1, reloads := 1 } := by
      simp [stop_background_service, hc, hs]
    rw [heq]
    refine ⟨rfl, rfl, fun heq2 => absurd heq2 hs, fun _ => ⟨rfl, ?_⟩⟩
    have hfind : st.containers.find? (fun d => d.cid = containerId) = some c := by
      simpa [getContainer] using hc
    have := getContainer_update st.containers containerId c
      { c with status := statusAfterStop } hfind (by simpa using hcid)
    simpa [getContainer] using this

/-- C5 witness: stopping a listed container whose single post-stop status
fetch observes `exited` issues exactly one stop request. -/
theorem claim_C5_stop_single_check_witness :
    (stop_background_service
      { images := [],
        containers :=
          [{ cid := "abc", image := "img", command := ["cmd"],
             mounts := [], status := "running" }] } "abc" "exited").stopCalls = 1 :=
  (claim_C5_stop_single_check
    { images := [],
      containers :=
        [{ cid := "abc", image := "img", command := ["cmd"],
           mounts := [], status := "running" }] } "abc" "exited"
    { cid := "abc", image := "img", command := ["cmd"],
      mounts := [], status := "running" } rfl).1

/-- C8: every container created by the system — by `run_command` or by
`start_background_service` — carries exactly one volume binding: the
scratchpad host directory bound at `/app/scratchpad` with mode `ro`; no
operation ever mounts it writable. -/
theorem claim_C8_scratchpad_readonly (st : DockerState)
    (scratchpad defaultImage : String) (argv : List String) (command : String)
    (image : Option String) (newId : String) (beh : RunOutcome)
    (maxRetries retryInterval : Nat) (runBeh : StartRunOutcome)
    (statusAt : Nat → String) :
    (∀ c ∈ (run_command st scratchpad defaultImage argv image newId beh).2.2,
      c.mounts =
        [{ hostPath := scratchpad, bind := "/app/scratchpad", mode := "ro" }]) ∧
    (∀ c ∈ (start_background_service st scratchpad defaultImage command maxRetries
        retryInterval newId runBeh statusAt).created,
      c.mounts =
        [{ hostPath := scratchpad, bind := "/app/scratchpad", mode := "ro" }]) := by
  constructor
  · cases beh <;> simp [run_command, containersRunAutoRemove, scratchpadMount]
  · cases runBeh with
    | err e => simp [start_background_service]
    | ok =>
      simp only [start_background_service]
      split <;> simp [scratchpadMount]

/-- C8 witness: the container created by a concrete `run_command` call
mounts the scratchpad read-only at `/app/scratchpad`. -/
theorem claim_C8_scratchpad_readonly_witness :
    ({ cid := "c1", image := "prefect-sandbox", command := ["ls"],
       mounts := [{ hostPath := "sp", bind := "/app/scratchpad", mode := "ro" }],
       status := "exited" } : Container).mounts =
      [{ hostPath := "sp", bind := "/app/scratchpad", mode := "ro" }] :=
  (claim_C8_scratchpad_readonly { images := [], containers := [] } "sp"
    "prefect-sandbox" ["ls"] "cmd" none "c1" (RunOutcome.ok "o") 3 2
    StartRunOutcome.ok (fun _ => "running")).1 _
    (by simp [run_command, containersRunAutoRemove, effectiveImage, scratchpadMount])

/-- C9 counterexample: not every exposed tool operation returns a
human-readable string — on a successful write, `create_or_update_scripts`
falls off the end of the Python function and returns `None`, not a string. -/
theorem claim_C9_counterexample :
    (create_or_update_scripts [] "a.py" "x" (Except.ok Unit.unit)).1 = none := rfl

/-- C9 (amended): the docker tools (`run_command`,
`start_background_service`, `stop_background_service`) always return one of
the documented human-readable message forms; the script CRUD operations do
not — `create_or_update_scripts` and `delete_script` return a failure string
only on failure and `None` on success, and `list_scripts` returns a list of
matching file names rather than a single string. -/
theorem claim_C9_tool_surface (st : DockerState)
    (scratchpad defaultImage : String) (argv : List String) (command : String)
    (image : Option String) (newId : String) (beh : RunOutcome)
    (maxRetries retryInterval : Nat) (runBeh : StartRunOutcome)
    (statusAt : Nat → String) (containerId statusAfterStop : String)
    (fs : Scratchpad) (filename body e : String) :
    ((∃ out, beh = RunOutcome.ok out ∧
        (run_command st scratchpad defaultImage argv image newId beh).1 = out) ∨
      (∃ m, (run_command st scratchpad defaultImage argv image newId beh).1 =
        "Failed to run Python file: " ++ m)) ∧
    ((start_background_service st scratchpad defaultImage command maxRetries
        retryInterval newId runBeh statusAt).message =
          "Service started successfully with container ID: " ++ newId ∨
      (start_background_service st scratchpad defaultImage command maxRetries
        retryInterval newId runBeh statusAt).message =
          "Failed to start background service after " ++ toString maxRetries ++
            " retries" ∨
      ∃ m, (start_background_service st scratchpad defaultImage command maxRetries
        retryInterval newId runBeh statusAt).message =
          "Failed to start background service: " ++ m) ∧
    ((stop_background_service st containerId statusAfterStop).message =
        "Service stopped and container removed with ID: " ++ containerId ∨
      (stop_background_service st containerId statusAfterStop).message =
        "Failed to stop background service with container ID: " ++ containerId ∨
      ∃ m, (stop_background_service st containerId statusAfterStop).message =
        "Failed to stop background service: " ++ m) ∧
    (create_or_update_scripts fs filename body (Except.ok Unit.unit)).1 = none ∧
    (create_or_update_scripts fs filename body (Except.error e)).1 =
      some ("Failed to write new helper: " ++ e) ∧
    (fs.any (fun p => p.1 = filename) = true →
      (delete_script fs filename).1 = none) ∧
    (fs.any (fun p => p.1 = filename) = false →
      (delete_script fs filename).1 =
        some ("Failed to delete helper: " ++ fileNotFoundMsg filename)) ∧
    (∀ name ∈ list_scripts fs "*.py", ∃ b, (name, b) ∈ fs) := by
  refine ⟨?_, ?_, ?_, rfl, rfl, ?_, ?_, ?_⟩
  · cases beh with
    | ok out =>
      exact Or.inl ⟨out, rfl, by simp [run_command, containersRunAutoRemove]⟩
    | nonzeroExit code stderr =>
      exact Or.inr ⟨containerErrorMsg argv (effectiveImage image defaultImage)
        code stderr, by simp [run_command, containersRunAutoRemove]⟩
    | imageMissing msg =>
      exact Or.inr ⟨msg, by simp [run_command, containersRunAutoRemove]⟩
    | apiError msg =>
      exact Or.inr ⟨msg, by simp [run_command, containersRunAutoRemove]⟩
  · cases runBeh with
    | err e2 =>
      exact Or.inr (Or.inr ⟨e2, by simp [start_background_service]⟩)
    | ok =>
      by_cases hp : (pollLoop statusAt retryInterval maxRetries 0).1 = true
      · exact Or.inl (by simp [start_background_service, hp])
      · rw [Bool.not_eq_true] at hp
        exact Or.inr (Or.inl (by simp [start_background_service, hp]))
  · cases hg : getContainer st containerId with
    | none =>
      exact Or.inr (Or.inr ⟨notFoundMsg containerId,
        by simp [stop_background_service, hg]⟩)
    | some c =>
      by_cases hs : statusAfterStop = "exited"
      · exact Or.inl (by simp [stop_background_service, hg, hs])
      · exact Or.inr (Or.inl (by simp [stop_background_service, hg, hs]))
  · intro hmem
    simp [delete_script, hmem]
  · intro hmem
    simp [delete_script, hmem]
  · intro name hmem
    simp only [list_scripts, List.mem_map, List.mem_filter] at hmem
    obtain ⟨p, ⟨hp, _⟩, rfl⟩ := hmem
    exact ⟨p.2, by simpa using hp⟩

/-- C9 witness: at concrete inputs, a failed write makes
`create_or_update_scripts` return the failure string. -/
theorem claim_C9_tool_surface_witness :
    (create_or_update_scripts [] "a.py" "body" (Except.error "boom")).1 =
      some ("Failed to write new helper: " ++ "boom") :=
  (claim_C9_tool_surface { images := [], containers := [] } "sp" "img" ["ls"]
    "cmd" none "c1" (RunOutcome.ok "o") 3 2 StartRunOutcome.ok
    (fun _ => "running") "id" "exited" [] "a.py" "body" "boom").2.2.2.2.1

end PrefectBot
